import Mathlib

/-!
# Verification of the 75 Hard habit tracker core

Shallow embedding of the core state model of the 75-hard habit tracker
(TypeScript / React Native).  Pure data definitions and transition
functions are translated from the source files:

* `src/lib/models/Task.ts`, `Attempt.ts`, `Day.ts` — domain model,
* `src/hooks/useDay.ts` — per-field update transitions on the current attempt,
* `StorageService` — AsyncStorage-backed persistence (key/value blob store),
* `ValidationService.validateWeight` — weight input validation,
* `DateService.getMaxUnlockedDay` / `handleDayPress` — day unlock policy,
* `saveTasks` (main screen) — bulk task revision,
* `DataService.validateImportData` / `importData` — backup import validation.

Modelling conventions:
* JS `undefined`-able fields become `Option`;
* JS numbers used as weights become `ℚ` (plus a separate `NaN` constructor
  where the source tests `isNaN`); timestamps in milliseconds become `ℤ`;
* the asynchronous AsyncStorage is modelled as an association list from
  string keys to stored blobs, with `JSON.stringify`/`JSON.parse`
  round-tripping modelled as the identity embedding of structured values.
-/

namespace HabitTracker

/-- `Task` from `src/lib/models/Task.ts`:
`{ id: string, title: string, completed: bool }`. -/
structure Task where
  id : String
  title : String
  completed : Bool
deriving DecidableEq

/-- The `Mood` union type from `src/lib/models/Attempt.ts`. -/
inductive Mood where
  | happy | sad | angry | fearful | strong | excited | calm | tired
deriving DecidableEq

/-- `Attempt` from `src/lib/models/Attempt.ts`.  `timestamp` is an ISO
string or `null` (`Option String`); `photoUri`, `mood` and `weight` are
optional fields (`undefined` when absent). -/
structure Attempt where
  number : Nat
  timestamp : Option String
  photoUri : Option String
  mood : Option Mood
  weight : Option ℚ
  tasks : List Task
  completed : Bool
deriving DecidableEq

/-- `Day` from `src/lib/models/Day.ts`. -/
structure Day where
  index : Nat
  date : String
  attempts : List Attempt
deriving DecidableEq

/-- `DEFAULT_TASKS` from `Task.ts` (id/title pairs, `completed` omitted). -/
def DEFAULT_TASKS : List (String × String) :=
  [("workout", "45 min workout"),
   ("rawdogging", "10 min rawdogging"),
   ("reading", "Read 10 pages"),
   ("water", "Drink 2L water")]

/-- `createTask` from `Task.ts`. -/
def createTask (id : String) (title : String) (completed : Bool) : Task :=
  { id := id, title := title, completed := completed }

/-- `createDefaultTasks` from `Task.ts`. -/
def createDefaultTasks : List Task :=
  DEFAULT_TASKS.map fun p => createTask p.1 p.2 false

/-- `createAttempt` from `Attempt.ts`: deep copy of the task template with
every `completed` forced to `false`; everything else unset. -/
def createAttempt (number : Nat) (tasks : List Task) : Attempt :=
  { number := number
    timestamp := none
    photoUri := none
    mood := none
    weight := none
    tasks := tasks.map fun task => { task with completed := false }
    completed := false }

/-- `isAttemptComplete` from `Attempt.ts`:
all tasks completed, mood set, photo set non-empty, weight set and `> 0`. -/
def isAttemptComplete (attempt : Attempt) : Bool :=
  let allTasksCompleted := attempt.tasks.all fun task => task.completed
  let hasMood := attempt.mood.isSome
  let hasPhoto := match attempt.photoUri with
    | some s => s != ""
    | none => false
  let hasWeight := match attempt.weight with
    | some w => decide (0 < w)
    | none => false
  allTasksCompleted && hasMood && hasPhoto && hasWeight

/-- `completeAttempt` from `Attempt.ts`; `now` is the current ISO time. -/
def completeAttempt (now : String) (attempt : Attempt) : Attempt :=
  { attempt with completed := true, timestamp := some now }

/-- `createDay` from `Day.ts`. -/
def createDay (index : Nat) (date : String) : Day :=
  { index := index, date := date, attempts := [createAttempt 1 createDefaultTasks] }

/-- `getCurrentAttempt` from `Day.ts`: `day.attempts[day.attempts.length - 1]`.
JavaScript indexing past the end returns `undefined`, modelled as `none`. -/
def getCurrentAttempt (day : Day) : Option Attempt :=
  day.attempts.getLast?

/-- `isDayCompleted` from `Day.ts`: some attempt is completed. -/
def isDayCompleted (day : Day) : Bool :=
  day.attempts.any fun attempt => attempt.completed

/-- `addNewAttempt` from `Day.ts`: appends `createAttempt (length+1)` built
from `createDefaultTasks`. -/
def addNewAttempt (day : Day) : Day :=
  { day with
    attempts := day.attempts ++ [createAttempt (day.attempts.length + 1) createDefaultTasks] }

/-- `updateCurrentAttempt` from `Day.ts`: replaces the last attempt. -/
def updateCurrentAttempt (day : Day) (updatedAttempt : Attempt) : Day :=
  { day with attempts := day.attempts.set (day.attempts.length - 1) updatedAttempt }

/-- `toggleTask` from `src/hooks/useDay.ts` (attempt-level core): flips the
task with the given id, recomputes `completed`, and keeps the *old* timestamp
when complete (clearing it when not complete). -/
def toggleTaskAttempt (taskId : String) (currentAttempt : Attempt) : Attempt :=
  let updatedTasks := currentAttempt.tasks.map fun task =>
    if task.id == taskId then { task with completed := !task.completed } else task
  let updatedAttempt := { currentAttempt with tasks := updatedTasks }
  let shouldBeCompleted := isAttemptComplete updatedAttempt
  { updatedAttempt with
    completed := shouldBeCompleted
    timestamp := if shouldBeCompleted then updatedAttempt.timestamp else none }

/-- `setMood` from `useDay.ts` (attempt-level core): demotion check against
the candidate attempt, then promotion with `timestamp = now` when the update
newly completes the attempt. -/
def setMoodAttempt (now : String) (mood : Mood) (currentAttempt : Attempt) : Attempt :=
  let keep := currentAttempt.completed &&
    isAttemptComplete { currentAttempt with mood := some mood }
  let updatedAttempt :=
    { currentAttempt with
      mood := some mood
      completed := keep
      timestamp := if keep then currentAttempt.timestamp else none }
  if isAttemptComplete updatedAttempt && !updatedAttempt.completed then
    { updatedAttempt with completed := true, timestamp := some now }
  else updatedAttempt

/-- `clearMood` from `useDay.ts` (attempt-level core). -/
def clearMoodAttempt (currentAttempt : Attempt) : Attempt :=
  let keep := currentAttempt.completed &&
    isAttemptComplete { currentAttempt with mood := none }
  { currentAttempt with
    mood := none
    completed := keep
    timestamp := if keep then currentAttempt.timestamp else none }

/-- `setWeight` from `useDay.ts` (attempt-level core, after validation). -/
def setWeightAttempt (now : String) (weight : ℚ) (currentAttempt : Attempt) : Attempt :=
  let keep := currentAttempt.completed &&
    isAttemptComplete { currentAttempt with weight := some weight }
  let updatedAttempt :=
    { currentAttempt with
      weight := some weight
      completed := keep
      timestamp := if keep then currentAttempt.timestamp else none }
  if isAttemptComplete updatedAttempt && !updatedAttempt.completed then
    { updatedAttempt with completed := true, timestamp := some now }
  else updatedAttempt

/-- `clearWeight` from `useDay.ts` (attempt-level core). -/
def clearWeightAttempt (currentAttempt : Attempt) : Attempt :=
  let keep := currentAttempt.completed &&
    isAttemptComplete { currentAttempt with weight := none }
  { currentAttempt with
    weight := none
    completed := keep
    timestamp := if keep then currentAttempt.timestamp else none }

/-- `setPhoto` from `useDay.ts` (attempt-level core): no demotion branch in
the source, only promotion with `timestamp = now`. -/
def setPhotoAttempt (now : String) (photoUri : String) (currentAttempt : Attempt) : Attempt :=
  let updatedAttempt := { currentAttempt with photoUri := some photoUri }
  if isAttemptComplete updatedAttempt && !updatedAttempt.completed then
    { updatedAttempt with completed := true, timestamp := some now }
  else updatedAttempt

/-- `clearPhoto` from `useDay.ts` (attempt-level core). -/
def clearPhotoAttempt (currentAttempt : Attempt) : Attempt :=
  let keep := currentAttempt.completed &&
    isAttemptComplete { currentAttempt with photoUri := none }
  { currentAttempt with
    photoUri := none
    completed := keep
    timestamp := if keep then currentAttempt.timestamp else none }

/-- A JavaScript number as consumed by `ValidationService.validateWeight`:
either `NaN` or a (decimal) numeric value.  The infinities, which the
source would accept, are not needed by any claim and are omitted. -/
inductive JSNum where
  | nan
  | num (q : ℚ)
deriving DecidableEq

/-- `ValidationService.validateWeight` from the source (numeric input):
rejects `NaN`, then rejects when the decimal representation has more than
one decimal place.  The source counts digits after the `.` in
`Number.prototype.toString`; a finite JS number admits at most one decimal
place exactly when `10·q` is an integer, i.e. when the reduced denominator
of `q` divides 10.  Returns `(isValid, error)`. -/
def validateWeight : JSNum → Bool × Option String
  | .nan => (false, some "Please enter a valid number")
  | .num q =>
    if q.den ∣ 10 then (true, none)
    else (false, some "Weight can have at most 1 decimal place")

/-- `setWeight` from `useDay.ts` (day level): returns `none` (the source
returns `false`) when validation fails, otherwise replaces the current
attempt via the shared transition.  A day without attempts also yields
`none` (the source would fault on `undefined`; such days never occur). -/
def setWeight (now : String) (weight : JSNum) (day : Day) : Option Day :=
  if (validateWeight weight).1 then
    match getCurrentAttempt day, weight with
    | some currentAttempt, .num q =>
        some (updateCurrentAttempt day (setWeightAttempt now q currentAttempt))
    | _, _ => none
  else none

/-- `toggleTask` from `useDay.ts` (day level). -/
def toggleTask (taskId : String) (day : Day) : Option Day :=
  (getCurrentAttempt day).map fun currentAttempt =>
    updateCurrentAttempt day (toggleTaskAttempt taskId currentAttempt)

/-- Failing input for C2: an attempt one task away from completion, with
mood, photo and weight already present. -/
def c2FailAttempt : Attempt :=
  { number := 1
    timestamp := none
    photoUri := some "photo.jpg"
    mood := some Mood.happy
    weight := some 70
    tasks := [createTask "workout" "45 min workout" false]
    completed := false }

/-- The same situation one requirement away via the mood instead. -/
def c2MoodAttempt : Attempt :=
  { c2FailAttempt with
    mood := none
    tasks := [createTask "workout" "45 min workout" true] }

/-- A day whose current attempt carries a revised (non-default) task list,
as left behind by a Bulk Task Revision. -/
def c5Day : Day :=
  { index := 5
    date := "2024-01-05"
    attempts := [{ number := 1, timestamp := none, photoUri := none, mood := none,
                   weight := none, tasks := [createTask "b" "B" true], completed := false }] }

/-- The claim C5's notion of "current task template", written from the
spec's words for comparison with the source's `addNewAttempt`: the task
list of the day's current attempt with every `completed` reset — after a
Bulk Task Revision this is the revised template. -/
def specCurrentTemplate (day : Day) : Option (List Task) :=
  (getCurrentAttempt day).map fun a => a.tasks.map fun t => { t with completed := false }

/-- A day with no attempts (violating the documented invariant), probing
`getCurrentAttempt`'s behaviour on the empty list. -/
def emptyDay : Day := { index := 1, date := "2024-01-01", attempts := [] }

/-- A day completed by its single attempt. -/
def c8CompletedDay : Day :=
  { index := 1
    date := "2024-01-01"
    attempts := [{ number := 1, timestamp := some "2024-01-01T20:00:00.000Z",
                   photoUri := some "p.jpg", mood := some Mood.calm, weight := some 70,
                   tasks := [createTask "workout" "45 min workout" true], completed := true }] }

/-- `ChallengeData` from the storage service: the persisted challenge
blob `{ version, startDate, days, currentDayIndex }`. -/
structure ChallengeData where
  version : ℤ
  startDate : String
  days : List Day
  currentDayIndex : ℤ
deriving DecidableEq

/-- A dynamically-typed JavaScript scalar as seen by the duck-typed import
validation (`typeof` checks and truthiness). -/
inductive JVal where
  | num (q : ℚ)
  | str (s : String)
  | boolean (b : Bool)
  | null
  | undefined
deriving DecidableEq

/-- JavaScript truthiness of a scalar. -/
def truthy : JVal → Bool
  | .num q => decide (q ≠ 0)
  | .str s => s != ""
  | .boolean b => b
  | .null => false
  | .undefined => false

/-- `typeof v === 'number'`. -/
def isNumber : JVal → Bool
  | .num _ => true
  | _ => false

/-- `typeof v === 'string'`. -/
def isStringVal : JVal → Bool
  | .str _ => true
  | _ => false

/-- The parsed `challengeData` member of an import payload, duck-typed:
scalar fields may have any runtime type; `days` is `some` exactly when the
value is an array (`Array.isArray`). -/
structure RawChallenge where
  version : JVal
  startDate : JVal
  days : Option (List Day)
  currentDayIndex : JVal
deriving DecidableEq

/-- A parsed import payload (`ExportData` duck-typed): `challengeData` is
`none` when the member is missing or falsy. -/
structure RawImport where
  version : JVal
  exportDate : JVal
  challengeData : Option RawChallenge
deriving DecidableEq

/-- A value stored in AsyncStorage: the serialized challenge blob (typed or
as an imported raw payload) or a plain string (weight-unit preference).
`JSON.stringify`/`JSON.parse` round-tripping is modelled as the identity. -/
inductive Blob where
  | challenge (c : ChallengeData)
  | rawChallenge (r : RawChallenge)
  | text (s : String)
deriving DecidableEq

/-- The AsyncStorage key/value store, modelled as an association list. -/
abbrev KV := List (String × Blob)

/-- `AsyncStorage.setItem`: last-writer-wins overwrite of one key. -/
def setItem (kv : KV) (key : String) (b : Blob) : KV :=
  match kv with
  | [] => [(key, b)]
  | (k, v) :: rest => if k = key then (key, b) :: rest else (k, v) :: setItem rest key b

/-- `AsyncStorage.getItem`. -/
def getItem (kv : KV) (key : String) : Option Blob :=
  match kv with
  | [] => none
  | (k, v) :: rest => if k = key then some v else getItem rest key

/-- `AsyncStorage.removeItem`. -/
def removeItem (kv : KV) (key : String) : KV :=
  match kv with
  | [] => []
  | (k, v) :: rest => if k = key then rest else (k, v) :: removeItem rest key

/-- `STORAGE_KEYS.CHALLENGE_DATA` from the storage service. -/
def CHALLENGE_DATA_KEY : String := "75hard_state_v1"

/-- `STORAGE_KEYS.CHALLENGE_START_DATE` from the storage service. -/
def CHALLENGE_START_DATE_KEY : String := "75hard_start_date_v1"

/-- `StorageService.CURRENT_VERSION`. -/
def CURRENT_VERSION : ℤ := 1

/-- `StorageService.saveChallengeData`: serialize and store the whole
challenge under the challenge-data key. -/
def saveChallengeData (kv : KV) (challengeData : ChallengeData) : KV :=
  setItem kv CHALLENGE_DATA_KEY (Blob.challenge challengeData)

/-- `StorageService.migrateData`: version bump plus re-persist. -/
def migrateData (kv : KV) (oldData : ChallengeData) : ChallengeData × KV :=
  let migratedData := { oldData with version := CURRENT_VERSION }
  (migratedData, saveChallengeData kv migratedData)

/-- `StorageService.loadChallengeData`: read the challenge-data key; absent
or non-challenge content yields `none` (the source's `null`/catch paths);
a version mismatch triggers migration, which re-persists. -/
def loadChallengeData (kv : KV) : Option ChallengeData × KV :=
  match getItem kv CHALLENGE_DATA_KEY with
  | some (Blob.challenge challengeData) =>
      if challengeData.version ≠ CURRENT_VERSION then
        let m := migrateData kv challengeData
        (some m.1, m.2)
      else (some challengeData, kv)
  | _ => (none, kv)

/-- `StorageService.clearChallengeData`: removes the challenge-data and
start-date keys (the weight-unit preference is retained). -/
def clearChallengeData (kv : KV) : KV :=
  removeItem (removeItem kv CHALLENGE_DATA_KEY) CHALLENGE_START_DATE_KEY

/-- `StorageService.updateDays`: wholesale-replace the day array and
re-persist the whole challenge in one write. -/
def updateDays (challengeData : ChallengeData) (updatedDays : List Day) (kv : KV) :
    ChallengeData × KV :=
  let updatedChallengeData := { challengeData with days := updatedDays }
  (updatedChallengeData, saveChallengeData kv updatedChallengeData)

/-- `DataService.validateImportData`: the structural checks, in source
order, with the source's error messages. -/
def validateImportData : Option RawImport → Bool × String
  | none => (false, "File is empty or corrupted.")
  | some d =>
    if !(isNumber d.version) then (false, "Invalid file format: missing version.")
    else if !(truthy d.exportDate) || !(isStringVal d.exportDate) then
      (false, "Invalid file format: missing export date.")
    else match d.challengeData with
      | none => (false, "Invalid file format: missing challenge data.")
      | some cd =>
        match cd.days with
        | none => (false, "Invalid file format: corrupted challenge data.")
        | some ds =>
          if !(isNumber cd.version) || !(truthy cd.startDate) ||
              !(isNumber cd.currentDayIndex) then
            (false, "Invalid file format: corrupted challenge data.")
          else if ds.length ≠ 75 then
            (false, "Invalid file format: incorrect number of days.")
          else (true, "Valid import data.")

/-- `DataService.importData` as a pure state transition on the store:
parse result in, user confirmation as a boolean, AsyncStorage in/out.
Validation runs first; only on success and confirmation is the existing
data cleared and the imported challenge written.  Returns
`((success, message), store)`. -/
def importData (payload : Option RawImport) (confirm : Bool) (kv : KV) :
    (Bool × String) × KV :=
  let v := validateImportData payload
  if v.1 then
    match payload with
    | some p =>
      match p.challengeData with
      | some cd =>
        if confirm then
          let cleared := clearChallengeData kv
          ((true, "Data imported successfully! The app will refresh with your imported data."),
            setItem cleared CHALLENGE_DATA_KEY (Blob.rawChallenge cd))
        else ((false, "Import cancelled by user."), kv)
      | none => ((false, v.2), kv)
    | none => ((false, v.2), kv)
  else ((false, v.2), kv)

/-- `DateService.getMaxUnlockedDay`.  The source normalizes the start date
and the current time to local midnight (`setHours(0,0,0,0)`) and floors the
millisecond difference divided by one day; the two midnight instants (in
epoch milliseconds) are the inputs here. -/
def getMaxUnlockedDay (startMidnightMs nowMidnightMs : ℤ) : ℤ :=
  let daysDifference := (nowMidnightMs - startMidnightMs).fdiv 86400000
  min 75 (max 1 (daysDifference + 1))

/-- `DateService.isDayUnlockedByTime`. -/
def isDayUnlockedByTime (dayIndex : ℤ) (startMidnightMs nowMidnightMs : ℤ) : Bool :=
  decide (dayIndex ≤ getMaxUnlockedDay startMidnightMs nowMidnightMs)

/-- `handleDayPress` from the main screen, as the navigability predicate:
`dayIndex` is the 0-based index; the time gate is checked on the 1-based
index and the completion gate on all strictly earlier days. -/
def canNavigate (days : List Day) (startMidnightMs nowMidnightMs : ℤ) (dayIndex : Nat) : Bool :=
  isDayUnlockedByTime ((dayIndex : ℤ) + 1) startMidnightMs nowMidnightMs &&
    (days.take dayIndex).all isDayCompleted

/-- `String.prototype.trim`, modelled over the character list (the
built-in `String.trim` is byte-position based and not reducible). -/
def jsTrim (s : String) : String :=
  String.mk (((s.data.dropWhile fun c => c.isWhitespace).reverse.dropWhile
    fun c => c.isWhitespace).reverse)

/-- `Array.prototype.map` with the element index, as used by `saveTasks`. -/
def mapWithIndexFrom (f : Nat → Day → Day) : Nat → List Day → List Day
  | _, [] => []
  | i, d :: rest => f i d :: mapWithIndexFrom f (i + 1) rest

/-- The per-task carry-over of `saveTasks`: keep `completed` from the task
with the same id in the old current-attempt task list, else `false`. -/
def carryOver (oldTasks : List Task) (newTask : Task) : Task :=
  match oldTasks.find? (fun t => t.id == newTask.id) with
  | some existingTask => { newTask with completed := existingTask.completed }
  | none => { newTask with completed := false }

/-- The per-day rebuild of `saveTasks` for an affected day: replace the
current attempt's task list by the new template with carried-over flags. -/
def reviseDay (validTasks : List Task) (day : Day) : Day :=
  match day.attempts.getLast? with
  | some currentAttempt =>
      updateCurrentAttempt day
        { currentAttempt with tasks := validTasks.map (carryOver currentAttempt.tasks) }
  | none => day

/-- `saveTasks` from the main screen (pure core): filter out empty titles,
reject an empty template (`none` models the alert-and-return), otherwise
rebuild every day that is not completed or lies strictly after the current
day index (both 0-based). -/
def saveTasksCompute (editableTasks : List Task) (currentDayIndex : Nat) (days : List Day) :
    Option (List Day) :=
  let validTasks := editableTasks.filter fun task => jsTrim task.title != ""
  if validTasks.length = 0 then none
  else some (mapWithIndexFrom
    (fun index day =>
      if !(isDayCompleted day) || decide (currentDayIndex < index) then
        reviseDay validTasks day
      else day)
    0 days)

/-- A minimal persisted challenge used by the storage theorems. -/
def c9Data : ChallengeData :=
  { version := 1, startDate := "2024-01-01T00:00:00.000Z", days := [], currentDayIndex := 1 }

/-- An import payload that is structurally valid except that its `days`
array has 74 entries. -/
def c6Payload74 : RawImport :=
  { version := JVal.num 1
    exportDate := JVal.str "2024-03-01T00:00:00.000Z"
    challengeData := some
      { version := JVal.num 1
        startDate := JVal.str "2024-01-01T00:00:00.000Z"
        days := some (List.replicate 74 (createDay 1 "2024-01-01"))
        currentDayIndex := JVal.num 5 } }

/-- An existing persisted store that an invalid import must not disturb. -/
def c6ExistingStore : KV := saveChallengeData [] c9Data

/-- A run of fully completed days (completion history for the C4 witness). -/
def c4Days : List Day := List.replicate 5 c8CompletedDay

/-- The C3 witness template (the spec's bulk-revision example). -/
def c3Template : List Task := [createTask "a" "A2" false, createTask "b" "B" false]

/-- A completed attempt over the old single-task template. -/
def c3DoneAttempt : Attempt :=
  { number := 1, timestamp := some "2024-01-01T20:00:00.000Z", photoUri := some "p.jpg",
    mood := some Mood.happy, weight := some 70,
    tasks := [createTask "a" "A" true], completed := true }

/-- The current day's incomplete attempt, task `a` already done. -/
def c3CurAttempt : Attempt :=
  { number := 1, timestamp := none, photoUri := none, mood := none, weight := none,
    tasks := [createTask "a" "A" true], completed := false }

/-- A future day's (completed) attempt over an unrelated task id. -/
def c3FutAttempt : Attempt :=
  { number := 1, timestamp := some "2024-01-03T20:00:00.000Z", photoUri := some "q.jpg",
    mood := some Mood.calm, weight := some 70,
    tasks := [createTask "c" "C" true], completed := true }

/-- Completed day at an index at or before the current one: protected. -/
def c3DayCompleted : Day := { index := 1, date := "2024-01-01", attempts := [c3DoneAttempt] }

/-- The (incomplete) current day. -/
def c3DayCurrent : Day := { index := 2, date := "2024-01-02", attempts := [c3CurAttempt] }

/-- A day strictly after the current index (completed, still revised). -/
def c3DayFuture : Day := { index := 3, date := "2024-01-03", attempts := [c3FutAttempt] }

/-- The day list for the C3 witness; the current 0-based index is 1. -/
def c3Days : List Day := [c3DayCompleted, c3DayCurrent, c3DayFuture]

/-- A fresh day used by the C10 witness. -/
def c10Day : Day := createDay 1 "2024-01-01"

/-! ## Theorems -/

/-- C1: `isAttemptComplete` is `true` iff every task is completed (vacuously
for an empty list), mood is set, the photo URI is set and non-empty, and the
weight is set and strictly positive. -/
theorem C1_isAttemptComplete_iff (a : Attempt) :
    isAttemptComplete a = true ↔
      ((∀ t ∈ a.tasks, t.completed = true) ∧
       a.mood ≠ none ∧
       (∃ s, a.photoUri = some s ∧ s ≠ "") ∧
       (∃ w, a.weight = some w ∧ 0 < w)) := by
  unfold isAttemptComplete
  cases hp : a.photoUri <;> cases hw : a.weight <;>
    simp [List.all_eq_true, Option.isSome_iff_ne_none, hp, hw, and_assoc]

/-- C2: evaluation of the bug.  Toggling the last open task of
`c2FailAttempt` makes the new field combination satisfy
`isAttemptComplete`, and the source then sets `completed := true` while
leaving `timestamp` at its old value `null` — so the promoted attempt has
`completed = true` with `timestamp = none`, violating the claimed invariant
`timestamp ≠ null ↔ completed`.  In contrast, `setMood` in the same
situation stamps the current time, as the claim requires of all four
fields. -/
theorem C2_toggleTask_promotion_leaves_timestamp_null :
    (toggleTaskAttempt "workout" c2FailAttempt).completed = true ∧
    (toggleTaskAttempt "workout" c2FailAttempt).timestamp = none ∧
    isAttemptComplete (toggleTaskAttempt "workout" c2FailAttempt) = true ∧
    (setMoodAttempt "2024-01-05T10:00:00.000Z" Mood.happy c2MoodAttempt).completed = true ∧
    (setMoodAttempt "2024-01-05T10:00:00.000Z" Mood.happy c2MoodAttempt).timestamp =
      some "2024-01-05T10:00:00.000Z" := by
  decide

/-- C5, counterexample: `addNewAttempt` builds the appended attempt's tasks
from the built-in `createDefaultTasks`, not from the day's current (revised)
template: on `c5Day`, whose current template is `[{id:"b",…}]`, the new
attempt receives the four built-in default tasks instead. -/
theorem C5_counterexample :
    ((addNewAttempt c5Day).attempts.getLast?).map Attempt.tasks = some createDefaultTasks ∧
    specCurrentTemplate c5Day = some [createTask "b" "B" false] ∧
    some createDefaultTasks ≠ specCurrentTemplate c5Day := by
  decide

/-- C5 (amended): `addNewAttempt` returns a new `Day` with the same index
and date, whose attempts list is the old list with one attempt appended;
the new attempt has `number = attempts.length + 1` and fresh, all-incomplete
tasks built from the built-in default task template `createDefaultTasks`
(not from any revised template). -/
theorem C5_addNewAttempt_appends_default_template (day : Day) :
    (addNewAttempt day).index = day.index ∧
    (addNewAttempt day).date = day.date ∧
    (addNewAttempt day).attempts =
      day.attempts ++
        [{ number := day.attempts.length + 1, timestamp := none, photoUri := none,
           mood := none, weight := none, tasks := createDefaultTasks, completed := false }] ∧
    createDefaultTasks.all (fun t => !t.completed) = true := by
  refine ⟨rfl, rfl, ?_, by decide⟩
  unfold addNewAttempt
  have h : (createDefaultTasks.map fun task => { task with completed := false }) =
      createDefaultTasks := by decide
  simp [createAttempt, h]

/-- C7, counterexample: on a day with an empty attempts list,
`getCurrentAttempt` (the source's `attempts[attempts.length - 1]`)
evaluates to the `undefined` value (`none`); no `InvariantViolation`
error exists anywhere in the source, so the call does not fail — it
returns an undefined value. -/
theorem C7_counterexample : getCurrentAttempt emptyDay = none := rfl

/-- C7 (amended): `getCurrentAttempt` returns the last element of
`attempts`, and on an empty attempts list it returns `undefined` (`none`)
rather than raising any error. -/
theorem C7_getCurrentAttempt_last (day : Day) :
    getCurrentAttempt day =
      if h : day.attempts = [] then none else some (day.attempts.getLast h) := by
  unfold getCurrentAttempt
  by_cases h : day.attempts = []
  · simp [h]
  · simp [h, List.getLast?_eq_getLast day.attempts h]

/-- C8: `isDayCompleted` is monotonic under `addNewAttempt`: a completed day
stays completed after any number of appended fresh attempts. -/
theorem C8_isDayCompleted_monotone (day : Day) (h : isDayCompleted day = true) (n : ℕ) :
    isDayCompleted (addNewAttempt^[n] day) = true := by
  induction n generalizing day with
  | zero => simpa using h
  | succ n ih =>
      rw [Function.iterate_succ_apply]
      apply ih
      simp only [isDayCompleted, addNewAttempt, List.any_append] at h ⊢
      simp [h]

/-- C8 witness: a concrete completed day stays completed after three
further attempts. -/
theorem C8_witness : isDayCompleted (addNewAttempt^[3] c8CompletedDay) = true :=
  C8_isDayCompleted_monotone c8CompletedDay (by decide) 3

/-- Reading back a key just written. -/
theorem getItem_setItem_self (kv : KV) (key : String) (b : Blob) :
    getItem (setItem kv key b) key = some b := by
  induction kv with
  | nil => simp [setItem, getItem]
  | cons hd rest ih =>
      obtain ⟨k, v⟩ := hd
      by_cases h : k = key
      · simp [setItem, getItem, h]
      · simp [setItem, getItem, h, ih]

/-- C9, counterexample: the challenge blob is keyed by `"75hard_state_v1"`,
not `"challenge_data_v1"`: after a save into an empty store, nothing lives
under `"challenge_data_v1"`. -/
theorem C9_counterexample :
    CHALLENGE_DATA_KEY = "75hard_state_v1" ∧
    CHALLENGE_DATA_KEY ≠ "challenge_data_v1" ∧
    getItem (saveChallengeData [] c9Data) "challenge_data_v1" = none ∧
    getItem (saveChallengeData [] c9Data) "75hard_state_v1" = some (Blob.challenge c9Data) := by
  refine ⟨rfl, by decide, rfl, rfl⟩

/-- C9 (amended): every save writes the challenge blob under the storage
key `"75hard_state_v1"`, and every load reads it back from that key: an
absent key loads as `none`, and a freshly saved challenge (at the current
schema version) loads back unchanged. -/
theorem C9_storage_key (kv : KV) (c : ChallengeData) :
    saveChallengeData kv c = setItem kv "75hard_state_v1" (Blob.challenge c) ∧
    (getItem kv "75hard_state_v1" = none → (loadChallengeData kv).1 = none) ∧
    (c.version = 1 →
      loadChallengeData (saveChallengeData kv c) = (some c, saveChallengeData kv c)) := by
  refine ⟨rfl, ?_, ?_⟩
  · intro h
    unfold loadChallengeData
    rw [show CHALLENGE_DATA_KEY = "75hard_state_v1" from rfl, h]
  · intro hv
    unfold loadChallengeData
    rw [show getItem (saveChallengeData kv c) CHALLENGE_DATA_KEY = some (Blob.challenge c) from
      getItem_setItem_self kv CHALLENGE_DATA_KEY (Blob.challenge c)]
    simp [hv, CURRENT_VERSION]

/-- C9 witness: the amended key facts at a concrete store and challenge. -/
theorem C9_witness :
    (loadChallengeData ([] : KV)).1 = none ∧
    c9Data.version = 1 ∧
    loadChallengeData (saveChallengeData [] c9Data) = (some c9Data, saveChallengeData [] c9Data) :=
  ⟨(C9_storage_key [] c9Data).2.1 rfl, rfl, (C9_storage_key [] c9Data).2.2 rfl⟩

/-- C4: the unlock policy.  `getMaxUnlockedDay` is
`max(1, floorDays(nowMidnight - startMidnight) + 1)` clamped to `[1, 75]`;
a 1-based day `d` (0-based `idx = d - 1`) is navigable iff `d` passes the
time gate and all strictly earlier days are completed; and with start
2024-01-01T00:00 and now 2024-01-03T08:00 (midnights 1704067200000 and
1704240000000 epoch ms) the maximum unlocked day is 3 and day 4 is locked
regardless of completion history. -/
theorem C4_unlock_policy (s n : ℤ) :
    (1 ≤ getMaxUnlockedDay s n ∧ getMaxUnlockedDay s n ≤ 75) ∧
    getMaxUnlockedDay s n = min 75 (max 1 ((n - s).fdiv 86400000 + 1)) ∧
    (∀ (days : List Day) (idx : ℕ),
      canNavigate days s n idx = true ↔
        ((idx : ℤ) + 1 ≤ getMaxUnlockedDay s n ∧
          ∀ d ∈ days.take idx, isDayCompleted d = true)) ∧
    (s = 1704067200000 → n = 1704240000000 →
      getMaxUnlockedDay s n = 3 ∧
      ∀ days : List Day, canNavigate days s n 3 = false) := by
  refine ⟨?_, rfl, ?_, ?_⟩
  · unfold getMaxUnlockedDay
    dsimp only
    omega
  · intro days idx
    simp [canNavigate, isDayUnlockedByTime, List.all_eq_true]
  · intro hs hn
    subst hs; subst hn
    refine ⟨by decide, ?_⟩
    intro days
    have h4 : isDayUnlockedByTime (4 : ℤ) 1704067200000 1704240000000 = false := by
      decide
    simp [canNavigate, h4]

/-- C4 witness: the concrete part of the policy, applied at a fully
completed history. -/
theorem C4_witness :
    getMaxUnlockedDay 1704067200000 1704240000000 = 3 ∧
    canNavigate c4Days 1704067200000 1704240000000 3 = false := by
  have h := (C4_unlock_policy 1704067200000 1704240000000).2.2.2 rfl rfl
  exact ⟨h.1, h.2 c4Days⟩

/-- C6: import is all-or-nothing at the validation stage.  Whenever
structural validation fails, `importData` returns that failure and the
store is untouched; in particular a payload whose `days` array does not
have length 75 always fails and never writes. -/
theorem C6_import_validation (payload : Option RawImport) (confirm : Bool) (kv : KV) :
    ((validateImportData payload).1 = false →
      importData payload confirm kv = ((false, (validateImportData payload).2), kv)) ∧
    (∀ p cd ds, payload = some p → p.challengeData = some cd → cd.days = some ds →
      ds.length ≠ 75 →
      (importData payload confirm kv).2 = kv ∧ (importData payload confirm kv).1.1 = false) := by
  constructor
  · intro h
    unfold importData
    simp [h]
  · intro p cd ds hp hcd hds hlen
    subst hp
    have hv : (validateImportData (some p)).1 = false := by
      rcases h : validateImportData (some p) with ⟨b, msg⟩
      cases b
      · rfl
      · exfalso
        unfold validateImportData at h
        simp only [hcd, hds] at h
        repeat' split at h
        all_goals simp_all
    have h1 : importData (some p) confirm kv =
        ((false, (validateImportData (some p)).2), kv) := by
      unfold importData
      simp [hv]
    rw [h1]
    exact ⟨rfl, rfl⟩

/-- C6 witness: a length-74 payload is rejected with the structural error
message and leaves a populated store byte-for-byte unchanged, even with
user confirmation. -/
theorem C6_witness :
    (validateImportData (some c6Payload74)).1 = false ∧
    (validateImportData (some c6Payload74)).2 =
      "Invalid file format: incorrect number of days." ∧
    importData (some c6Payload74) true c6ExistingStore =
      ((false, "Invalid file format: incorrect number of days."), c6ExistingStore) := by
  have hv : (validateImportData (some c6Payload74)).1 = false := by rfl
  refine ⟨hv, rfl, ?_⟩
  have h := (C6_import_validation (some c6Payload74) true c6ExistingStore).1 hv
  simpa using h

/-- The shared weight transition stores exactly the given weight. -/
theorem setWeightAttempt_weight (now : String) (q : ℚ) (ca : Attempt) :
    (setWeightAttempt now q ca).weight = some q := by
  unfold setWeightAttempt
  dsimp only
  repeat' split
  all_goals rfl

/-- An attempt with a non-positive weight never passes the completion check. -/
theorem isAttemptComplete_weight_nonpos (a : Attempt) (q : ℚ) (hw : a.weight = some q)
    (h : q ≤ 0) : isAttemptComplete a = false := by
  unfold isAttemptComplete
  simp [hw, show ¬(0 < q) from not_lt.mpr h]

/-- C10: weight validation accepts exactly the non-`NaN` numbers with at
most one decimal place (`10·q` integral) — zero and negative values
included — and rejects `NaN` and numbers with more than one decimal place;
a rejected `setWeight` returns `false` (here `none`) leaving the day
unchanged, while an accepted one stores the given weight in the current
attempt, so a non-positive stored weight simply never satisfies the weight
category of `isAttemptComplete`. -/
theorem C10_validateWeight_setWeight :
    (∀ q : ℚ, q.den ∣ 10 → (validateWeight (JSNum.num q)).1 = true) ∧
    ((validateWeight JSNum.nan).1 = false) ∧
    (∀ q : ℚ, ¬(q.den ∣ 10) → (validateWeight (JSNum.num q)).1 = false) ∧
    (∀ (now : String) (w : JSNum) (day : Day),
      (validateWeight w).1 = false → setWeight now w day = none) ∧
    (∀ (now : String) (q : ℚ) (day : Day) (ca : Attempt),
      getCurrentAttempt day = some ca → q.den ∣ 10 →
      setWeight now (JSNum.num q) day =
        some (updateCurrentAttempt day (setWeightAttempt now q ca)) ∧
      (setWeightAttempt now q ca).weight = some q) ∧
    (∀ (now : String) (q : ℚ) (ca : Attempt), q ≤ 0 →
      isAttemptComplete (setWeightAttempt now q ca) = false) := by
  refine ⟨?_, rfl, ?_, ?_, ?_, ?_⟩
  · intro q h
    simp [validateWeight, h]
  · intro q h
    simp [validateWeight, h]
  · intro now w day h
    unfold setWeight
    simp [h]
  · intro now q day ca hca hden
    refine ⟨?_, setWeightAttempt_weight now q ca⟩
    unfold setWeight
    simp [validateWeight, hden, hca]
  · intro now q ca h
    exact isAttemptComplete_weight_nonpos _ q (setWeightAttempt_weight now q ca) h

/-- C10 witness: zero and `-12.5` are accepted, `0.25` and `NaN` are
rejected, a `NaN` `setWeight` is a no-op returning `false`, and a stored
zero weight leaves the attempt incomplete. -/
theorem C10_witness :
    (validateWeight (JSNum.num 0)).1 = true ∧
    (validateWeight (JSNum.num (mkRat (-125) 10))).1 = true ∧
    (validateWeight (JSNum.num (mkRat 1 4))).1 = false ∧
    (validateWeight JSNum.nan).1 = false ∧
    setWeight "2024-01-01T12:00:00.000Z" JSNum.nan c10Day = none ∧
    isAttemptComplete
      (setWeightAttempt "2024-01-01T12:00:00.000Z" 0 (createAttempt 1 createDefaultTasks)) =
      false := by
  refine ⟨C10_validateWeight_setWeight.1 0 (by decide),
    C10_validateWeight_setWeight.1 (mkRat (-125) 10) (by decide),
    C10_validateWeight_setWeight.2.2.1 (mkRat 1 4) (by decide),
    C10_validateWeight_setWeight.2.1,
    C10_validateWeight_setWeight.2.2.2.1 "2024-01-01T12:00:00.000Z" JSNum.nan c10Day (by decide),
    C10_validateWeight_setWeight.2.2.2.2.2 "2024-01-01T12:00:00.000Z" 0 _ (le_refl 0)⟩

/-- Index-aware map preserves length. -/
theorem mapWithIndexFrom_length (f : Nat → Day → Day) (start : Nat) (l : List Day) :
    (mapWithIndexFrom f start l).length = l.length := by
  induction l generalizing start with
  | nil => rfl
  | cons d rest ih => simp [mapWithIndexFrom, ih]

/-- Element-wise description of the index-aware map. -/
theorem mapWithIndexFrom_getElem? (f : Nat → Day → Day) (start i : Nat) (l : List Day) :
    (mapWithIndexFrom f start l)[i]? = (l[i]?).map (f (start + i)) := by
  induction l generalizing start i with
  | nil => simp [mapWithIndexFrom]
  | cons d rest ih =>
      cases i with
      | zero => simp [mapWithIndexFrom]
      | succ j =>
          have e : start + (j + 1) = start + 1 + j := by omega
          simp only [mapWithIndexFrom, List.getElem?_cons_succ, ih (start + 1) j, e]

/-- C3: bulk task revision with a valid (non-empty filtered) template.  The
computed day list has the same length; a completed day at or before the
current index is returned unchanged; every other day has its current
attempt's task list rebuilt from the new template with carried-over
completion flags; and the persistence step is a single whole-array write of
the challenge blob. -/
theorem C3_saveTasks_bulk_revision (editableTasks : List Task) (cur : Nat) (days : List Day)
    (hvalid : (editableTasks.filter fun task => jsTrim task.title != "") ≠ []) :
    ∃ result,
      saveTasksCompute editableTasks cur days = some result ∧
      result.length = days.length ∧
      (∀ i d, days[i]? = some d → isDayCompleted d = true → i ≤ cur →
        result[i]? = some d) ∧
      (∀ i d, days[i]? = some d → (isDayCompleted d = false ∨ cur < i) →
        ∀ ca, d.attempts.getLast? = some ca →
          result[i]? = some (updateCurrentAttempt d
            { ca with tasks := ((editableTasks.filter fun task => jsTrim task.title != "").map
                (carryOver ca.tasks)) })) ∧
      (∀ (c : ChallengeData) (kv : KV),
        updateDays c result kv =
          ({ c with days := result },
            setItem kv CHALLENGE_DATA_KEY (Blob.challenge { c with days := result }))) := by
  have hne : ¬((editableTasks.filter fun task => jsTrim task.title != "").length = 0) := by
    simpa [List.length_eq_zero] using hvalid
  refine ⟨mapWithIndexFrom
      (fun index day =>
        if !(isDayCompleted day) || decide (cur < index) then
          reviseDay (editableTasks.filter fun task => jsTrim task.title != "") day
        else day)
      0 days, ?_, mapWithIndexFrom_length _ _ _, ?_, ?_, fun c kv => rfl⟩
  · unfold saveTasksCompute
    simp [hne]
  · intro i d hd hcomp hle
    rw [mapWithIndexFrom_getElem?, hd]
    simp [hcomp, Nat.not_lt.mpr hle]
  · intro i d hd hcond ca hca
    rw [mapWithIndexFrom_getElem?, hd]
    have hc : (!(isDayCompleted d) || decide (cur < i)) = true := by
      rcases hcond with h | h
      · simp [h]
      · simp [h]
    simp only [Nat.zero_add, Option.map_some', hc, if_true]
    unfold reviseDay
    rw [hca]

/-- C3 witness: the spec's bulk-revision example at current index 1 —
the completed earlier day is untouched, the current day carries over task
`a`'s completion into the new template, and the completed future day is
revised all the same. -/
theorem C3_witness :
    ((c3Template.filter fun task => jsTrim task.title != "") ≠ []) ∧
    ∃ result,
      saveTasksCompute c3Template 1 c3Days = some result ∧
      result.length = 3 ∧
      result[0]? = some c3DayCompleted ∧
      result[1]? = some (updateCurrentAttempt c3DayCurrent
        { c3CurAttempt with tasks := [createTask "a" "A2" true, createTask "b" "B" false] }) ∧
      result[2]? = some (updateCurrentAttempt c3DayFuture
        { c3FutAttempt with tasks := [createTask "a" "A2" false, createTask "b" "B" false] }) := by
  obtain ⟨result, h1, h2, h3, h4, _h5⟩ :=
    C3_saveTasks_bulk_revision c3Template 1 c3Days (by decide)
  refine ⟨by decide, result, h1, by rw [h2]; rfl, ?_, ?_, ?_⟩
  · exact h3 0 c3DayCompleted rfl (by decide) (by decide)
  · have h := h4 1 c3DayCurrent rfl (Or.inl (by decide)) c3CurAttempt rfl
    have e : ((c3Template.filter fun task => jsTrim task.title != "").map
        (carryOver c3CurAttempt.tasks)) =
        [createTask "a" "A2" true, createTask "b" "B" false] := by decide
    rw [e] at h
    exact h
  · have h := h4 2 c3DayFuture rfl (Or.inr (by decide)) c3FutAttempt rfl
    have e : ((c3Template.filter fun task => jsTrim task.title != "").map
        (carryOver c3FutAttempt.tasks)) =
        [createTask "a" "A2" false, createTask "b" "B" false] := by decide
    rw [e] at h
    exact h

/-- C1 witness: the characterization applied at a concrete fully-satisfied
attempt. -/
theorem C1_witness : isAttemptComplete c3DoneAttempt = true :=
  (C1_isAttemptComplete_iff c3DoneAttempt).mpr
    ⟨by decide, by decide, ⟨"p.jpg", rfl, by decide⟩, ⟨70, rfl, by decide⟩⟩

/-- C7 witness: the amended description applied at a concrete one-attempt
day. -/
theorem C7_witness : getCurrentAttempt c3DayCurrent = some c3CurAttempt := by
  have h := C7_getCurrentAttempt_last c3DayCurrent
  simpa using h

end HabitTracker
